import Mathlib

/-!
A verification development for the go-orvibo UDP device-control library.

The Go source (orvibo.go) is shallowly embedded as follows:

* Pure helpers (`reverseMAC`, hex encoding/decoding, `fmt.Sprintf("%0Ns", strconv.FormatInt(n, 16))`)
  become Lean functions over `List Char` / `String` (the Go code manipulates hex strings, so the
  wire format is carried around as its hex-string rendering, exactly like the source).
* The process-wide mutable state (`Devices map[string]*Device`, the `Events` channel of capacity 1,
  the UDP socket) becomes an explicit `GoState` record threaded through every operation.
  Go pointers (`*Device`) are modeled as indices into an allocation list `heap`; the registry maps
  MAC strings to such indices; a nil pointer is `Option.none`.  The capacity-1 `Events` channel is
  a single `Option EventStruct` slot, and `passMessage`'s non-blocking send drops the event when
  the slot is full, as in the source.
* Network sends are recorded in order in `sent` (the hex string handed to `conn.WriteToUDP`);
  address resolution and the UDP write themselves are elided (they always succeed here).
  `Prepare`, `Discover`, `CheckForMessages` and `getLocalIP` are pure I/O plumbing and are not
  modeled; `handleMessage` models the decode/apply step that `CheckForMessages` hands each
  datagram to.
* Fallible code paths — a Go runtime panic from a nil-map-entry dereference or an out-of-range
  string slice — are modeled by `Option`: a function returns `none` exactly when the Go original
  panics.  `rand.Intn(255)` results are passed in as explicit `Nat` arguments.
-/

set_option maxRecDepth 16384

namespace Orvibo

/-- Device type constants, from the Go `const` block (`UNKNOWN = -1 + iota`). -/
def UNKNOWN : Int := -1

/-- Constant `SOCKET` is an S10 / S20 powerpoint socket. -/
def SOCKET : Int := 0

/-- Constant `ALLONE` is the AllOne IR blaster. -/
def ALLONE : Int := 1

/-- RF switch device type constant. -/
def RFTYPE : Int := 2

/-- KEPLER device type constant. -/
def KEPLER : Int := 3

/-- The `RFSwitch` struct: contains info about RF switches. -/
structure RFSwitch where
  State : Bool
deriving Repr, DecidableEq

/-- The `Device` struct of the Go source.  The `IP *net.UDPAddr` field is not modeled
(no claim concerns network addresses); `RFSwitches map[string]RFSwitch` is an association list. -/
structure Device where
  ID : Int := 0
  Name : String := ""
  DeviceType : Int := 0
  MACAddress : String := ""
  Subscribed : Bool := false
  Queried : Bool := false
  State : Bool := false
  RFSwitches : List (String × RFSwitch) := []
  LastIRMessage : String := ""
  LastMessage : String := ""
deriving Repr, DecidableEq

/-- The `EventStruct` record: an event name plus the `DeviceInfo *Device` pointer.  The pointer is an
index into the heap; `none` is Go's nil pointer. -/
structure EventStruct where
  Name : String
  DeviceInfo : Option Nat
deriving Repr, DecidableEq

/-- The process-wide mutable state of the library. -/
structure GoState where
  /-- Allocation store; a Go `*Device` is an index into this list. -/
  heap : List Device := []
  /-- Go `var Devices = make(map[string]*Device)`: MAC address to device pointer. -/
  Devices : List (String × Nat) := []
  /-- Go `var Events = make(chan EventStruct, 1)`: the capacity-1 channel's slot. -/
  events : Option EventStruct := none
  /-- Hex strings handed to `conn.WriteToUDP`, oldest first. -/
  sent : List String := []
  /-- Go `var deviceCount int`. -/
  deviceCount : Int := 0
deriving Repr, DecidableEq

/-- Go `var twenties = "202020202020"`: padding for the MAC address. -/
def twenties : String := "202020202020"

/-- Value of a hex digit character, as `encoding/hex` accepts it. -/
def hexDigitVal (c : Char) : Option Nat :=
  if '0' ≤ c ∧ c ≤ '9' then some (c.toNat - 48)
  else if 'a' ≤ c ∧ c ≤ 'f' then some (c.toNat - 87)
  else if 'A' ≤ c ∧ c ≤ 'F' then some (c.toNat - 55)
  else none

/-- Go `hex.DecodeString`: decodes hex pairs to bytes; on malformed input Go returns the bytes
decoded before the error (all call sites discard the error), which this models by stopping. -/
def hexDecodeList : List Char → List Nat
  | a :: b :: rest =>
    match hexDigitVal a, hexDigitVal b with
    | some x, some y => (16 * x + y) :: hexDecodeList rest
    | _, _ => []
  | _ => []

/-- Lowercase hex digit for a value below 16. -/
def hexChar (n : Nat) : Char :=
  if n < 10 then Char.ofNat (48 + n) else Char.ofNat (87 + n)

/-- Go `hex.EncodeToString`: two lowercase hex digits per byte. -/
def hexEncodeList : List Nat → List Char
  | [] => []
  | b :: rest => hexChar (b / 16) :: hexChar (b % 16) :: hexEncodeList rest

/-- Function `reverseMAC`: splits a hex string into bytes, reverses the bytes, re-encodes. -/
def reverseMAC (mac : String) : String :=
  String.mk (hexEncodeList (hexDecodeList mac.data).reverse)

/-- Go `string(bytes)` on the result of `hex.DecodeString` (ASCII payloads in practice). -/
def bytesToString (bs : List Nat) : String :=
  String.mk (bs.map Char.ofNat)

/-- Fuel-driven digit extraction (structural recursion so that the kernel can evaluate it);
the fuel is always at least the number, so the base case is never hit with `16 ≤ n`. -/
def natToHexGo (fuel n : Nat) : List Char :=
  match fuel with
  | 0 => [hexChar n]
  | fuel + 1 =>
    if n < 16 then [hexChar n]
    else natToHexGo fuel (n / 16) ++ [hexChar (n % 16)]

/-- Go `strconv.FormatInt(n, 16)` for nonnegative `n`: minimal lowercase hex digits. -/
def natToHexCore (n : Nat) : List Char :=
  natToHexGo n n

/-- Go `fmt.Sprintf("%0ws", strconv.FormatInt(n, 16))`: the hex digits of `n`,
zero-padded on the left to width `w` (Go's `0` flag pads strings with zeros). -/
def formatHexPad (w n : Nat) : String :=
  String.mk (List.replicate (w - (natToHexCore n).length) '0' ++ natToHexCore n)

/-- The byte-pair swap `s[2:4] + s[0:2]` applied to a 4-hex-digit length field. -/
def swapPairs4 (s : String) : String :=
  String.mk ((s.data.drop 2).take 2 ++ s.data.take 2)

/-- Big-endian value of a hex digit list (non-digits contribute 0; used on digit lists only). -/
def hexToNat (l : List Char) : Nat :=
  l.foldl (fun acc c => 16 * acc + ((hexDigitVal c).getD 0)) 0

/-- Go string slice `s[lo:hi]` on the character list: `some` of the slice when
`0 ≤ lo ≤ hi ≤ len`, otherwise `none` (the Go original panics). -/
def goSlice? (l : List Char) (lo hi : Int) : Option (List Char) :=
  if 0 ≤ lo ∧ lo ≤ hi ∧ hi ≤ (l.length : Int) then
    some ((l.drop lo.toNat).take (hi - lo).toNat)
  else none

/-- Go `s[len(s)-1:]` — the final character.  Every call site has a nonempty message. -/
def lastBitL (ml : List Char) : List Char :=
  ml.drop (ml.length - 1)

/-- Prefix test: does `pat` lead the list `s`? -/
def leadMatch : List Char → List Char → Bool
  | [], _ => true
  | _ :: _, [] => false
  | p :: ps, c :: cs => p == c && leadMatch ps cs

/-- Go `strings.Index`: byte index of the first occurrence of `pat`, `-1` when absent. -/
def strIndexL (pat : List Char) : List Char → Int
  | [] => if leadMatch pat [] then 0 else -1
  | c :: cs =>
    if leadMatch pat (c :: cs) then 0
    else
      let r := strIndexL pat cs
      if r < 0 then -1 else r + 1

/-- Registry lookup `Devices[mac]` as the Go map read: the stored pointer, or nil (`none`). -/
def lookupPtr (s : GoState) (mac : String) : Option Nat :=
  (s.Devices.find? (fun kv => kv.1 == mac)).map (·.2)

/-- The `exists` helper: do we have `macAdd` in our `Devices` list? -/
def existsDev (s : GoState) (macAdd : String) : Bool :=
  (lookupPtr s macAdd).isSome

/-- Dereference a device pointer known to be valid (Go map range values are never nil). -/
def derefD (s : GoState) (p : Nat) : Device :=
  (s.heap.get? p).getD {}

/-- Overwrite the device a pointer refers to (a Go field assignment through `*Device`). -/
def heapSet (s : GoState) (p : Nat) (d : Device) : GoState :=
  { s with heap := s.heap.set p d }

/-- Allocate a fresh `Device` (Go `&Device{...}`), returning its pointer. -/
def allocDevice (d : Device) (s : GoState) : Nat × GoState :=
  (s.heap.length, { s with heap := s.heap ++ [d] })

/-- Allocate a device and enter it into the registry under `mac`
(Go `Devices[macAdd] = &Device{...}`). -/
def registerDevice (s : GoState) (mac : String) (d : Device) : GoState × Nat :=
  let p := s.heap.length
  ({ s with heap := s.heap ++ [d], Devices := s.Devices ++ [(mac, p)] }, p)

/-- Function `passMessage`: non-blocking send on the capacity-1 `Events` channel; if the slot is
occupied the event is silently dropped.  `device` is the raw pointer (`none` = nil). -/
def passMessage (message : String) (device : Option Nat) (s : GoState) : GoState :=
  match s.events with
  | none => { s with events := some ⟨message, device⟩ }
  | some _ => s

/-- Function `SendMessage`: records the hex packet as written to the UDP socket and raises the
`sendmessage` event.  Address resolution and the socket write are elided (they succeed). -/
def SendMessage (msg : String) (device : Nat) (s : GoState) : GoState × Bool × Option String :=
  let s1 := { s with sent := s.sent ++ [msg] }
  let s2 := passMessage "sendmessage" (some device) s1
  (s2, true, none)

/-- The consumer's view of the pending event: the name, and the `Device` obtained by
dereferencing the event's `DeviceInfo` pointer at observation time. -/
def readEvent (s : GoState) : Option (String × Option Device) :=
  s.events.map (fun e => (e.Name, e.DeviceInfo.bind (fun p => s.heap.get? p)))

/-! ### Outgoing packet construction -/

/-- The subscribe command: `"6864001e636c" + MACAddress + twenties + reverseMAC(MACAddress) + twenties`. -/
def subscribePacket (mac : String) : String :=
  "6864001e636c" ++ mac ++ twenties ++ reverseMAC mac ++ twenties

/-- The query command: `"6864001D7274" + MACAddress + twenties + "0000000004000000000000"`. -/
def queryPacket (mac : String) : String :=
  "6864001D7274" ++ mac ++ twenties ++ "0000000004000000000000"

/-- The state-set command: `"686400176463" + macAdd + twenties + "00000000" + statebit`. -/
def setStatePacket (mac statebit : String) : String :=
  "686400176463" ++ mac ++ twenties ++ "00000000" ++ statebit

/-- The IR learning mode command: `"686400186c73" + mac + twenties + "010000000000"`. -/
def learnPacket (mac : String) : String :=
  "686400186c73" ++ mac ++ twenties ++ "010000000000"

/-- The IR emit packet shape:
`"6864" + packetlen + "6963" + mac + twenties + "65000000" + rnda + rndb + irlen + IR`. -/
def emitIRPacket (packetlen mac rnda rndb irlen IR : String) : String :=
  "6864" ++ packetlen ++ "6963" ++ mac ++ twenties ++ "65000000" ++ rnda ++ rndb ++ irlen ++ IR

/-- The RF emit packet shape:
`"6864" + packetlen + "6463" + mac + twenties + "3ef5ee0b" + rnda + rndb + RF`. -/
def emitRFPacket (packetlen mac rnda rndb RFcode : String) : String :=
  "6864" ++ packetlen ++ "6463" ++ mac ++ twenties ++ "3ef5ee0b" ++ rnda ++ rndb ++ RFcode

/-- One random byte rendered as in `EmitIR`/`EmitRF`:
`fmt.Sprintf("%02s", strconv.FormatInt(int64(rand.Intn(255)), 16))`. -/
def rndHex (n : Nat) : String := formatHexPad 2 n

/-- The IR-code length field of `EmitIR`: `irlen` computed as
`fmt.Sprintf("%04s", strconv.FormatInt(int64(len(IR)/2), 16))` then `irlen[2:4] + irlen[0:2]`. -/
def irLenField (IR : String) : String := swapPairs4 (formatHexPad 4 (IR.length / 2))

/-- The total-length field of `EmitIR`: `fmt.Sprintf("%04s", ...)` of half the length of the
prototype packet built with the dummy MAC `accfdeadbeef` — not byte-swapped. -/
def irPacketLen (IR : String) (ra rb : Nat) : String :=
  formatHexPad 4 ((emitIRPacket "0000" "accfdeadbeef" (rndHex ra) (rndHex rb) (irLenField IR) IR).length / 2)

/-- The total-length field of `EmitRF`, analogous to `irPacketLen`. -/
def rfPacketLen (RFcode : String) (ra rb : Nat) : String :=
  formatHexPad 4 ((emitRFPacket "0000" "accfdeadbeef" (rndHex ra) (rndHex rb) RFcode).length / 2)

/-! ### Orchestration operations -/

/-- One iteration of `Subscribe`'s loop over the registry. -/
def subscribeStep (st : GoState) (kv : String × Nat) : GoState :=
  (SendMessage (subscribePacket (derefD st kv.2).MACAddress) kv.2 st).1

/-- Function `Subscribe`: loops over all the Devices, sending the subscribe command to each one.
The `if Devices[k].Subscribed == false` guard is commented out in the source, so the
command is sent unconditionally.  Afterwards raises `subscribe` with a fresh empty Device. -/
def Subscribe (s : GoState) : GoState :=
  let s1 := s.Devices.foldl subscribeStep s
  let (p, s2) := allocDevice {} s1
  passMessage "subscribe" (some p) s2

/-- One iteration of `Query`'s loop: send only if `Queried == false && Subscribed == true`,
overwriting the running `(success, err)` with this send's result. -/
def queryStep (acc : GoState × Bool × Option String) (kv : String × Nat) :
    GoState × Bool × Option String :=
  let d := derefD acc.1 kv.2
  if d.Queried = false ∧ d.Subscribed = true then
    SendMessage (queryPacket d.MACAddress) kv.2 acc.1
  else acc

/-- Function `Query`: asks every subscribed-but-unqueried device for its name; returns the result of
the last send performed (Go's loop overwrites `success, err` each iteration). -/
def Query (s : GoState) : GoState × Bool × Option String :=
  let r := s.Devices.foldl queryStep (s, false, none)
  let (p, s2) := allocDevice {} r.1
  (passMessage "query" (some p) s2, r.2.1, r.2.2)

/-- Function `SetState`: only a `SOCKET` may have its state set; the local `State` field is written
optimistically before the command is sent.  `none` models the nil-pointer panic when
`macAdd` is not in the registry. -/
def SetState (macAdd : String) (state : Bool) (s : GoState) :
    Option (GoState × Bool × Option String) := do
  let p ← lookupPtr s macAdd
  let d ← s.heap.get? p
  if d.DeviceType = SOCKET then
    let s1 := heapSet s p { d with State := state }
    let statebit := if state = true then "01" else "00"
    let r := SendMessage (setStatePacket macAdd statebit) p s1
    let s3 := passMessage "stateset" (some p) r.1
    some (s3, r.2.1, r.2.2)
  else
    some (s, false, some "Can't set state on a non-socket")

/-- Function `ToggleState`: reads the current `State` and calls `SetState` with its negation. -/
def ToggleState (macAdd : String) (s : GoState) : Option (GoState × Bool × Option String) := do
  let p ← lookupPtr s macAdd
  let d ← s.heap.get? p
  if d.State = true then SetState macAdd false s else SetState macAdd true s

/-- One iteration of `EmitIR`'s `"ALL"` loop: only `ALLONE` devices receive the packet,
rebuilt with that device's MAC but the call's single `rnda`/`rndb`/`irlen`. -/
def emitIRStep (packetlen rnda rndb irlen IR : String) (st : GoState) (kv : String × Nat) :
    GoState :=
  if (derefD st kv.2).DeviceType = ALLONE then
    (SendMessage (emitIRPacket packetlen (derefD st kv.2).MACAddress rnda rndb irlen IR) kv.2 st).1
  else st

/-- Function `EmitIR`: emits IR from the AllOne.  `ra`/`rb` are the two `rand.Intn(255)` draws made
once at the top of the call.  `"ALL"` targets every `ALLONE` registry entry; a specific MAC
targets that entry only when its type is `ALLONE` and is otherwise a silent no-op
(`none` models the nil-pointer panic on an unknown MAC). -/
def EmitIR (IR macAdd : String) (ra rb : Nat) (s : GoState) : Option GoState :=
  if macAdd = "ALL" then
    some (s.Devices.foldl (emitIRStep (irPacketLen IR ra rb) (rndHex ra) (rndHex rb) (irLenField IR) IR) s)
  else do
    let p ← lookupPtr s macAdd
    let d ← s.heap.get? p
    if d.DeviceType = ALLONE then
      some (SendMessage (emitIRPacket (irPacketLen IR ra rb) macAdd (rndHex ra) (rndHex rb) (irLenField IR) IR) p s).1
    else some s

/-- One iteration of `EmitRF`'s `"ALL"` loop. -/
def emitRFStep (packetlen rnda rndb RFcode : String) (st : GoState) (kv : String × Nat) :
    GoState :=
  if (derefD st kv.2).DeviceType = ALLONE then
    (SendMessage (emitRFPacket packetlen (derefD st kv.2).MACAddress rnda rndb RFcode) kv.2 st).1
  else st

/-- Function `EmitRF`: same structure as `EmitIR` with the `"6463"` command and no length field. -/
def EmitRF (RFcode macAdd : String) (ra rb : Nat) (s : GoState) : Option GoState :=
  if macAdd = "ALL" then
    some (s.Devices.foldl (emitRFStep (rfPacketLen RFcode ra rb) (rndHex ra) (rndHex rb) RFcode) s)
  else do
    let p ← lookupPtr s macAdd
    let d ← s.heap.get? p
    if d.DeviceType = ALLONE then
      some (SendMessage (emitRFPacket (rfPacketLen RFcode ra rb) macAdd (rndHex ra) (rndHex rb) RFcode) p s).1
    else some s

/-- One iteration of `EnterLearningMode`'s `"ALL"` loop. -/
def learnStep (st : GoState) (kv : String × Nat) : GoState :=
  if (derefD st kv.2).DeviceType = ALLONE then
    passMessage "irlearnmode" (some kv.2) ((SendMessage (learnPacket (derefD st kv.2).MACAddress) kv.2 st).1)
  else st

/-- Function `EnterLearningMode`: the `"ALL"` sentinel targets every `ALLONE`; a specific non-`ALLONE` MAC is a
silent no-op; an unknown MAC panics (`none`). -/
def EnterLearningMode (macAdd : String) (s : GoState) : Option GoState :=
  if macAdd = "ALL" then
    some (s.Devices.foldl learnStep s)
  else do
    let p ← lookupPtr s macAdd
    let d ← s.heap.get? p
    if d.DeviceType = ALLONE then
      some (passMessage "irlearnmode" (some p) ((SendMessage (learnPacket macAdd) p s).1))
    else some s

/-- Function `EnterRFLearningMode`: unconditional send of the `"7266"` command to `macAdd`. -/
def EnterRFLearningMode (macAdd : String) (s : GoState) : Option GoState := do
  let p ← lookupPtr s macAdd
  let s1 := (SendMessage ("646400187266" ++ macAdd ++ twenties ++ "010000000000") p s).1
  some (passMessage "rflearnmode" (some p) s1)

/-! ### Incoming datagram handling (`handleMessage` and its switch cases) -/

/-- A freshly discovered device record, as built in the `"7161"` case. -/
def newDeviceFrom (id dtype : Int) (mac msg : String) : Device :=
  { ID := id, Name := "", DeviceType := dtype, MACAddress := mac,
    Subscribed := false, Queried := false, State := false,
    RFSwitches := [], LastIRMessage := "", LastMessage := msg }

/-- The `"7161"` case: a response to the broadcast message.  `"49524430"` (bytes `IRD0`)
marks an AllOne, `"534f4330"` (bytes `SOC0`) marks a socket (both tested with `> 0`);
an unseen MAC is registered, a known one only gets `LastMessage` refreshed.  In the final
branch `Devices[macAdd].LastMessage = message` panics (`none`) when the MAC is unknown. -/
def handleDiscovery (message macAdd : String) (s : GoState) :
    Option (GoState × Bool × Option String) :=
  let ml := message.data
  let pOpt := lookupPtr s macAdd
  if strIndexL "49524430".data ml > 0 then
    match pOpt with
    | none =>
      let cnt := s.deviceCount + 1
      let r := registerDevice { s with deviceCount := cnt } macAdd
        (newDeviceFrom cnt ALLONE macAdd message)
      some (passMessage "allonefound" (some r.2) r.1, true, none)
    | some p => do
      let d ← s.heap.get? p
      some (passMessage "existingallonefound" (some p) (heapSet s p { d with LastMessage := message }), true, none)
  else if strIndexL "534f4330".data ml > 0 then
    match pOpt with
    | none =>
      let cnt := s.deviceCount + 1
      let r := registerDevice { s with deviceCount := cnt } macAdd
        (newDeviceFrom cnt SOCKET macAdd message)
      -- lastBit: the just-created device's State is set from the final character
      let s2 :=
        if lastBitL ml = "0".data then heapSet r.1 r.2 { derefD r.1 r.2 with State := false }
        else heapSet r.1 r.2 { derefD r.1 r.2 with State := true }
      some (passMessage "socketfound" (some r.2) s2, true, none)
    | some p => do
      let d ← s.heap.get? p
      some (passMessage "existingsocketfound" (some p) (heapSet s p { d with LastMessage := message }), true, none)
  else
    match pOpt with
    | none => none
    | some p => do
      let d ← s.heap.get? p
      some (passMessage "unknownhardwarefound" (some p) (heapSet s p { d with LastMessage := message }), true, none)

/-- The `"636c"` case: confirmation of subscription.  An unknown MAC returns `(false, nil)`;
otherwise the final character of the message sets `State`, `LastMessage` is refreshed and
`subscribed` is raised.  `Subscribed` itself is not written. -/
def handleSubscribeConfirm (message macAdd : String) (s : GoState) :
    Option (GoState × Bool × Option String) :=
  if existsDev s macAdd = false then
    some (s, false, none)
  else do
    let p ← lookupPtr s macAdd
    let d ← s.heap.get? p
    let d1 :=
      if lastBitL message.data = "1".data then { d with State := true }
      else { d with State := false }
    let s1 := heapSet s p { d1 with LastMessage := message }
    some (passMessage "subscribed" (some p) s1, true, none)

/-- The `"7274"` case: data back from a query.  `strName` is `message[140:172]`
(`strings.TrimRight(·, "")` with an empty cutset is the identity, and `strName[0:32]` is all
of `strName`); an all-space or all-`ff` hex name yields the synthesized
`"Socket <mac>"` / `"AllOne <mac>"` name, anything else the decoded bytes. -/
def handleQueryResp (message macAdd : String) (s : GoState) :
    Option (GoState × Bool × Option String) := do
  let strName ← goSlice? message.data 140 172
  let strDecName := hexDecodeList strName
  let p ← lookupPtr s macAdd
  let d ← s.heap.get? p
  let d1 :=
    if strName = "20202020202020202020202020202020".data
        ∨ strName = "ffffffffffffffffffffffffffffffff".data then
      if d.DeviceType = SOCKET then { d with Name := "Socket " ++ macAdd }
      else { d with Name := "AllOne " ++ macAdd }
    else
      { d with Name := bytesToString strDecName }
  let s1 := heapSet s p { d1 with LastMessage := message }
  some (passMessage "queried" (some p) s1, true, none)

/-- The `"7366"` case: confirmation of a state change. -/
def handleStateChange (message macAdd : String) (s : GoState) :
    Option (GoState × Bool × Option String) := do
  let p ← lookupPtr s macAdd
  let d ← s.heap.get? p
  let d1 :=
    if lastBitL message.data = "0".data then { d with State := false }
    else { d with State := true }
  let s1 := heapSet s p { d1 with LastMessage := message }
  some (passMessage "statechanged" (some p) s1, true, none)

/-- The `"6469"` case: the button on top of the AllOne was pressed. -/
def handleButtonPress (message macAdd : String) (s : GoState) :
    Option (GoState × Bool × Option String) := do
  let p ← lookupPtr s macAdd
  let d ← s.heap.get? p
  some (passMessage "buttonpress" (some p) (heapSet s p { d with LastMessage := message }), true, none)

/-- The `"6c73"` case: an IR code received after learning mode; only handled when the
message has at least 52 hex characters, shorter messages fall through to `(true, nil)`. -/
def handleIRLearned (message macAdd : String) (s : GoState) :
    Option (GoState × Bool × Option String) :=
  if 52 ≤ message.data.length then do
    let p ← lookupPtr s macAdd
    let tailIR ← goSlice? message.data 52 message.data.length
    let d ← s.heap.get? p
    let s1 := heapSet s p { d with LastIRMessage := String.mk tailIR, LastMessage := message }
    some (passMessage "ircode" (some p) s1, true, none)
  else some (s, true, none)

/-- Function `handleMessage`: parses one datagram (as its hex string).  Only a blank message is
rejected up front; `message[8:12]` and the MAC slice at `strings.Index(message, "accf")`
panic (`none`) on shorter or marker-less input.  The result is Go's `(bool, error)` pair
alongside the updated state; unmatched commands fall through to `(true, nil)`. -/
def handleMessage (message : String) (s : GoState) :
    Option (GoState × Bool × Option String) :=
  let ml := message.data
  if ml.length = 0 then some (s, false, some "Blank message")
  else if message = "686400067161" then some (s, true, none)
  else do
    let commandID ← goSlice? ml 8 12
    let macStart := strIndexL "accf".data ml
    let macAddL ← goSlice? ml macStart (macStart + 12)
    let macAdd := String.mk macAddL
    if commandID = "7161".data then handleDiscovery message macAdd s
    else if commandID = "636c".data then handleSubscribeConfirm message macAdd s
    else if commandID = "6463".data then
      some (passMessage "rfswitch" (lookupPtr s macAdd) s, true, none)
    else if commandID = "7274".data then handleQueryResp message macAdd s
    else if commandID = "7366".data then handleStateChange message macAdd s
    else if commandID = "6469".data then handleButtonPress message macAdd s
    else if commandID = "6c73".data then handleIRLearned message macAdd s
    else some (s, true, none)

/-! ### Observation helpers and concrete fixtures used by the theorems -/

/-- The Go string slice `s[a:b]` for in-range constants (clamps like `List.take`/`drop`). -/
def charSliceN (str : String) (a b : Nat) : String :=
  String.mk ((str.data.drop a).take (b - a))

/-- A socket device, not yet subscribed, with a vendor MAC. -/
def dUnsub : Device := { ID := 1, MACAddress := "accf23133333", DeviceType := SOCKET }

/-- A registry holding only `dUnsub`. -/
def sUnsub : GoState := { heap := [dUnsub], Devices := [("accf23133333", 0)] }

/-- The same socket with `Subscribed = true`. -/
def dSub : Device := { dUnsub with Subscribed := true }

/-- A registry in which every device is already subscribed. -/
def sAllSubscribed : GoState := { heap := [dSub], Devices := [("accf23133333", 0)] }

/-- An AllOne device. -/
def alloneDevA : Device := { ID := 1, MACAddress := "accf23133333", DeviceType := ALLONE }

/-- A second AllOne device with a different MAC. -/
def alloneDevB : Device := { ID := 2, MACAddress := "accf23144444", DeviceType := ALLONE }

/-- A registry with two AllOne devices. -/
def sTwoAllones : GoState :=
  { heap := [alloneDevA, alloneDevB], Devices := [("accf23133333", 0), ("accf23144444", 1)] }

/-- The zero-valued state: empty registry, empty heap, empty event slot. -/
def emptyState : GoState := {}

/-- A subscribe-confirmation datagram for MAC `accf23133333` whose final state bit is `1`. -/
def subMsgC3 : String := "68640018636caccf2313333301"

/-- A state-change (`"7366"`) datagram for MAC `accf23133333` whose final state bit is `0`. -/
def chgMsgOff : String := "686400177366accf2313333300"

/-- An RF-switch (`"6463"`) datagram for MAC `accf23133333`. -/
def rfMsgC5 : String := "686400176463accf2313333300"

/-- The first 140 hex characters of a query-response datagram for MAC `accf23133333`:
command `"7274"` at `[8:12]`, the MAC at index 12, zero filler up to the name field. -/
def qryPre : String := "686400a87274accf23133333" ++ String.mk (List.replicate 116 '0')

/-- A full query response: `qryPre` followed by a 32-hex-char name field decoding to
`"Kitchen"` padded with spaces. -/
def qryMsgC3 : String := qryPre ++ "4b69746368656e202020202020202020"

/-- A well-formed datagram (command slice and MAC present) whose command `"9999"` is unknown. -/
def unkMsgC6 : String := "686400069999accf23133333"

/-! ## Frame lemmas for the state primitives -/

theorem passMessage_heap (m : String) (dp : Option Nat) (s : GoState) :
    (passMessage m dp s).heap = s.heap := by
  unfold passMessage
  cases s.events <;> rfl

theorem passMessage_sent (m : String) (dp : Option Nat) (s : GoState) :
    (passMessage m dp s).sent = s.sent := by
  unfold passMessage
  cases s.events <;> rfl

theorem passMessage_Devices (m : String) (dp : Option Nat) (s : GoState) :
    (passMessage m dp s).Devices = s.Devices := by
  unfold passMessage
  cases s.events <;> rfl

theorem SendMessage_heap (msg : String) (p : Nat) (s : GoState) :
    ((SendMessage msg p s).1).heap = s.heap := by
  unfold SendMessage
  rw [passMessage_heap]

theorem SendMessage_sent (msg : String) (p : Nat) (s : GoState) :
    ((SendMessage msg p s).1).sent = s.sent ++ [msg] := by
  unfold SendMessage
  rw [passMessage_sent]

theorem SendMessage_Devices (msg : String) (p : Nat) (s : GoState) :
    ((SendMessage msg p s).1).Devices = s.Devices := by
  unfold SendMessage
  rw [passMessage_Devices]

theorem derefD_heap_congr {s1 s2 : GoState} (h : s1.heap = s2.heap) :
    derefD s1 = derefD s2 := by
  funext p
  unfold derefD
  rw [h]

/-! ## The `Subscribe` loop -/

theorem subscribeStep_heap (st : GoState) (kv : String × Nat) :
    (subscribeStep st kv).heap = st.heap := by
  unfold subscribeStep
  rw [SendMessage_heap]

theorem subscribeStep_Devices (st : GoState) (kv : String × Nat) :
    (subscribeStep st kv).Devices = st.Devices := by
  unfold subscribeStep
  rw [SendMessage_Devices]

theorem subscribeStep_sent (st : GoState) (kv : String × Nat) :
    (subscribeStep st kv).sent = st.sent ++ [subscribePacket (derefD st kv.2).MACAddress] := by
  unfold subscribeStep
  rw [SendMessage_sent]

/-- Folding `subscribeStep` over any key list appends exactly one subscribe packet per entry,
regardless of any `Subscribed` flag, and leaves the heap alone. -/
theorem subscribe_fold (l : List (String × Nat)) (s : GoState) :
    (l.foldl subscribeStep s).sent
        = s.sent ++ l.map (fun kv => subscribePacket (derefD s kv.2).MACAddress)
      ∧ (l.foldl subscribeStep s).heap = s.heap := by
  induction l generalizing s with
  | nil => simp
  | cons kv t ih =>
    obtain ⟨ih1, ih2⟩ := ih (subscribeStep s kv)
    have hheap := subscribeStep_heap s kv
    have hderef : derefD (subscribeStep s kv) = derefD s := derefD_heap_congr hheap
    refine ⟨?_, ?_⟩
    · rw [List.foldl_cons, ih1, subscribeStep_sent, hderef, List.map_cons, List.append_assoc,
        List.singleton_append]
    · rw [List.foldl_cons, ih2, hheap]

/-- Claim C1 (amended): `Subscribe()` sends the subscribe command to every registry entry
unconditionally — the `Subscribed == false` guard is commented out in the source — so even a
fully subscribed registry receives one command per device, and two consecutive calls send two
commands per device. -/
theorem C1_amended_thm (s : GoState) :
    (Subscribe s).sent
      = s.sent ++ s.Devices.map (fun kv => subscribePacket (derefD s kv.2).MACAddress) := by
  unfold Subscribe allocDevice
  rw [passMessage_sent]
  exact (subscribe_fold s.Devices s).1

/-- Claim C1 (counterexample): in a registry whose single device already has
`Subscribed = true`, `Subscribe()` still performs a network send — the claim's
"fully-subscribed registry results in no network send" is false on the code. -/
theorem C1_counterexample :
    (∀ kv ∈ sAllSubscribed.Devices, (derefD sAllSubscribed kv.2).Subscribed = true)
      ∧ (Subscribe sAllSubscribed).sent ≠ [] := by
  decide

/-! ## The `EmitIR "ALL"` loop -/

theorem emitIRStep_heap (pl ra rb il IR : String) (st : GoState) (kv : String × Nat) :
    (emitIRStep pl ra rb il IR st kv).heap = st.heap := by
  unfold emitIRStep
  split
  · rw [SendMessage_heap]
  · rfl

theorem emitIRStep_sent (pl ra rb il IR : String) (st : GoState) (kv : String × Nat) :
    (emitIRStep pl ra rb il IR st kv).sent
      = st.sent ++ (if (derefD st kv.2).DeviceType = ALLONE then
            [emitIRPacket pl (derefD st kv.2).MACAddress ra rb il IR] else []) := by
  unfold emitIRStep
  split
  · rw [SendMessage_sent]
  · simp

/-- Folding `emitIRStep` appends exactly one packet per `ALLONE` registry entry — all built
with the same `rnda`/`rndb` — zero packets for any other device type, and leaves the heap
alone. -/
theorem emitIR_fold (pl ra rb il IR : String) (l : List (String × Nat)) (s : GoState) :
    (l.foldl (emitIRStep pl ra rb il IR) s).sent
        = s.sent ++ (l.filter (fun kv => (derefD s kv.2).DeviceType == ALLONE)).map
            (fun kv => emitIRPacket pl (derefD s kv.2).MACAddress ra rb il IR)
      ∧ (l.foldl (emitIRStep pl ra rb il IR) s).heap = s.heap := by
  induction l generalizing s with
  | nil => simp
  | cons kv t ih =>
    obtain ⟨ih1, ih2⟩ := ih (emitIRStep pl ra rb il IR s kv)
    have hheap := emitIRStep_heap pl ra rb il IR s kv
    have hderef : derefD (emitIRStep pl ra rb il IR s kv) = derefD s := derefD_heap_congr hheap
    refine ⟨?_, ?_⟩
    · rw [List.foldl_cons, ih1, emitIRStep_sent, hderef, List.filter_cons]
      by_cases hA : (derefD s kv.2).DeviceType = ALLONE
      · simp only [hA, if_pos rfl, beq_self_eq_true, if_true, List.map_cons,
          List.append_assoc, List.singleton_append]
      · have hb : ((derefD s kv.2).DeviceType == ALLONE) = false := by
          simp [hA]
        simp only [if_neg hA, hb, List.append_nil, Bool.false_eq_true, if_false]
    · rw [List.foldl_cons, ih2, hheap]

/-- Claim C8 (amended): `EmitIR(code, "ALL")` sends exactly one encoded IR-emit command per
`ALLONE` device and none to any other type, but the 2-byte nonce is drawn once per call and
shared by every device's command — it is not fresh per device. -/
theorem C8_amended_thm (s : GoState) (IR : String) (ra rb : Nat) :
    (EmitIR IR "ALL" ra rb s).map GoState.sent =
      some (s.sent ++ (s.Devices.filter (fun kv => (derefD s kv.2).DeviceType == ALLONE)).map
        (fun kv => emitIRPacket (irPacketLen IR ra rb) (derefD s kv.2).MACAddress
          (rndHex ra) (rndHex rb) (irLenField IR) IR)) := by
  unfold EmitIR
  rw [if_pos rfl, Option.map_some']
  exact congrArg some (emitIR_fold _ _ _ _ _ s.Devices s).1

/-- Claim C8 (counterexample): with two AllOne devices in the registry, the two commands
sent by `EmitIR(code, "ALL")` carry the same 2-byte nonce (`"0a0b"` at hex offset 44..48) —
the nonces are not distinct per device. -/
theorem C8_counterexample :
    (EmitIR "aabb" "ALL" 10 11 sTwoAllones).map
        (fun s2 => s2.sent.map (fun pk => charSliceN pk 44 48)) = some ["0a0b", "0a0b"] := by
  decide

/-! ## `SetState` (claim C7) and single-target emit operations (claim C10) -/

theorem heap_lt_of_get? {s : GoState} {p : Nat} {d : Device} (hd : s.heap.get? p = some d) :
    p < s.heap.length := by
  rw [List.get?_eq_getElem?] at hd
  exact (List.getElem?_eq_some.mp hd).1

theorem heapSet_get? {s : GoState} {p : Nat} (d : Device) (hlt : p < s.heap.length) :
    (heapSet s p d).heap.get? p = some d := by
  unfold heapSet
  rw [List.get?_eq_getElem?]
  exact List.getElem?_set_self hlt

/-- Claim C7: `SetState` on a registered non-`SOCKET` device fails with the
"Can't set state on a non-socket" error and returns the state completely unchanged, while on
a `SOCKET` it writes the local `State` optimistically and sends the state-set packet. -/
theorem C7_thm (s : GoState) (mac : String) (p : Nat) (d : Device) (b : Bool)
    (hp : lookupPtr s mac = some p) (hd : s.heap.get? p = some d) :
    (d.DeviceType ≠ SOCKET →
        SetState mac b s = some (s, false, some "Can't set state on a non-socket"))
    ∧ (d.DeviceType = SOCKET →
        (SetState mac b s).map (fun r => (r.1.heap.get? p, r.1.sent, r.2.1, r.2.2)) =
          some (some { d with State := b },
                s.sent ++ [setStatePacket mac (if b = true then "01" else "00")],
                true, none)) := by
  have hlt : p < s.heap.length := heap_lt_of_get? hd
  constructor
  · intro hT
    unfold SetState
    rw [hp]
    simp only [Option.bind_eq_bind, Option.some_bind, hd, if_neg hT]
  · intro hT
    unfold SetState
    rw [hp]
    simp only [Option.bind_eq_bind, Option.some_bind, hd, if_pos hT, Option.map_some']
    have h1 : (passMessage "stateset" (some p)
          (SendMessage (setStatePacket mac (if b = true then "01" else "00")) p
            (heapSet s p { d with State := b })).1).heap.get? p = some { d with State := b } := by
      rw [passMessage_heap, SendMessage_heap]
      exact heapSet_get? _ (by simpa [heapSet] using hlt)
    have h2 : (passMessage "stateset" (some p)
          (SendMessage (setStatePacket mac (if b = true then "01" else "00")) p
            (heapSet s p { d with State := b })).1).sent
        = s.sent ++ [setStatePacket mac (if b = true then "01" else "00")] := by
      rw [passMessage_sent, SendMessage_sent]
      rfl
    rw [h1, h2]
    rfl

/-- Claim C7 (witness): concrete instantiation on an AllOne device — `SetState` fails and
leaves the registry untouched. -/
theorem C7_witness :
    (lookupPtr sTwoAllones "accf23133333" = some 0
        ∧ sTwoAllones.heap.get? 0 = some alloneDevA)
    ∧ ((alloneDevA.DeviceType ≠ SOCKET →
          SetState "accf23133333" true sTwoAllones =
            some (sTwoAllones, false, some "Can't set state on a non-socket"))
        ∧ (alloneDevA.DeviceType = SOCKET →
            (SetState "accf23133333" true sTwoAllones).map
                (fun r => (r.1.heap.get? 0, r.1.sent, r.2.1, r.2.2)) =
              some (some { alloneDevA with State := true },
                    sTwoAllones.sent ++ [setStatePacket "accf23133333" (if true = true then "01" else "00")],
                    true, none))) :=
  ⟨⟨by decide, by decide⟩,
    C7_thm sTwoAllones "accf23133333" 0 alloneDevA true (by decide) (by decide)⟩

/-- Claim C10: for a specific registered MAC of non-`ALLONE` type, `EmitIR`, `EmitRF` and
`EnterLearningMode` return the state exactly as given — no packet, no event, no error, no
registry change. -/
theorem C10_thm (s : GoState) (mac : String) (p : Nat) (d : Device) (IR RFcode : String)
    (ra rb : Nat) (hne : mac ≠ "ALL") (hp : lookupPtr s mac = some p)
    (hd : s.heap.get? p = some d) (hT : d.DeviceType ≠ ALLONE) :
    EmitIR IR mac ra rb s = some s ∧ EmitRF RFcode mac ra rb s = some s
      ∧ EnterLearningMode mac s = some s := by
  refine ⟨?_, ?_, ?_⟩
  · unfold EmitIR
    rw [if_neg hne, hp]
    simp only [Option.bind_eq_bind, Option.some_bind, hd, if_neg hT]
  · unfold EmitRF
    rw [if_neg hne, hp]
    simp only [Option.bind_eq_bind, Option.some_bind, hd, if_neg hT]
  · unfold EnterLearningMode
    rw [if_neg hne, hp]
    simp only [Option.bind_eq_bind, Option.some_bind, hd, if_neg hT]

/-- Claim C10 (witness): concrete instantiation on the socket `dUnsub`. -/
theorem C10_witness :
    (("accf23133333" : String) ≠ "ALL"
        ∧ lookupPtr sUnsub "accf23133333" = some 0
        ∧ sUnsub.heap.get? 0 = some dUnsub
        ∧ dUnsub.DeviceType ≠ ALLONE)
    ∧ (EmitIR "aabb" "accf23133333" 10 11 sUnsub = some sUnsub
        ∧ EmitRF "ccdd" "accf23133333" 10 11 sUnsub = some sUnsub
        ∧ EnterLearningMode "accf23133333" sUnsub = some sUnsub) :=
  ⟨⟨by decide, by decide, by decide, by decide⟩,
    C10_thm sUnsub "accf23133333" 0 dUnsub "aabb" "ccdd" 10 11
      (by decide) (by decide) (by decide) (by decide)⟩

/-! ## Event aliasing (claim C4) -/

/-- Claim C4 (amended): a published event carries a live pointer to the affected `Device`,
not a copy — once an event referring to pointer `p` sits in the notification slot, a
registry mutation of that device is observed by the consumer through the event. -/
theorem C4_amended_thm (s : GoState) (e : EventStruct) (p : Nat) (d2 : Device)
    (he : s.events = some e) (hp : e.DeviceInfo = some p) (hlt : p < s.heap.length) :
    readEvent (heapSet s p d2) = some (e.Name, some d2) := by
  unfold readEvent
  have hev : (heapSet s p d2).events = s.events := rfl
  rw [hev, he, Option.map_some', hp, Option.some_bind, heapSet_get? d2 hlt]

/-- Claim C4 (witness): concrete instantiation of the aliasing theorem. -/
theorem C4_witness :
    (({ sUnsub with events := some ⟨"subscribed", some 0⟩ } : GoState).events
          = some ⟨"subscribed", some 0⟩
        ∧ (⟨"subscribed", some 0⟩ : EventStruct).DeviceInfo = some 0
        ∧ 0 < ({ sUnsub with events := some ⟨"subscribed", some 0⟩ } : GoState).heap.length)
    ∧ readEvent (heapSet { sUnsub with events := some ⟨"subscribed", some 0⟩ } 0
          { dUnsub with State := true })
        = some ("subscribed", some { dUnsub with State := true }) :=
  ⟨⟨by decide, by decide, by decide⟩,
    C4_amended_thm { sUnsub with events := some ⟨"subscribed", some 0⟩ }
      ⟨"subscribed", some 0⟩ 0 { dUnsub with State := true }
      (by decide) (by decide) (by decide)⟩

/-- Claim C4 (counterexample): process a subscribe confirmation (the event slot then holds
`("subscribed", ptr)`), then process a state-change datagram for the same device — the
second event is dropped (slot full) and the `Device` the consumer observes through the
*same pending event* has changed from `State = true` to `State = false`. -/
theorem C4_counterexample :
    ((handleMessage subMsgC3 sUnsub).bind (fun r1 =>
        (handleMessage chgMsgOff r1.1).map (fun r2 => (readEvent r1.1, readEvent r2.1)))) =
      some (some ("subscribed", some { dUnsub with State := true, LastMessage := subMsgC3 }),
            some ("subscribed", some { dUnsub with State := false, LastMessage := chgMsgOff }))
    ∧ ({ dUnsub with State := true, LastMessage := subMsgC3 } : Device)
        ≠ { dUnsub with State := false, LastMessage := chgMsgOff } := by
  constructor
  · decide
  · decide

/-! ## Unknown-MAC handling (claim C5) and undersized datagrams (claim C6) -/

/-- Claim C5 (code bug): a state-change datagram for a MAC absent from the registry makes
`handleMessage` dereference a nil map entry — a runtime panic, modeled as `none` — instead
of being silently ignored; and an RF-switch datagram for an unknown MAC publishes an
`rfswitch` event carrying a nil device pointer instead of publishing nothing. -/
theorem C5_bug_thm :
    handleMessage chgMsgOff emptyState = none
    ∧ (handleMessage rfMsgC5 emptyState).map (fun r => (r.1.events, r.2.1, r.2.2)) =
        some (some ⟨"rfswitch", none⟩, true, none) := by
  constructor
  · decide
  · decide

/-- Claim C6 (counterexample): the 2-byte datagram `"6864"` is non-empty and undersized;
`handleMessage` reaches the out-of-range slice `message[8:12]` (result `none`, a panic)
instead of returning a ProtocolError result. -/
theorem C6_counterexample :
    handleMessage "6864" emptyState = none ∧ ("6864" : String).length ≠ 0 := by
  constructor
  · decide
  · decide

/-- Claim C6 (amended): decoding rejects only the *empty* datagram, with the
"Blank message" error and the state unchanged; an unrecognized command code in a datagram
long enough to carry the command slice and a MAC is accepted as a successful no-op
(undersized non-empty datagrams instead hit an out-of-range slice, see the counterexample). -/
theorem C6_amended_thm (s : GoState) :
    handleMessage "" s = some (s, false, some "Blank message")
    ∧ handleMessage unkMsgC6 s = some (s, true, none) := by
  constructor
  · rfl
  · rfl

/-! ## Subscription confirmation and query responses (claim C3) -/

theorem handleMessage_subMsgC3 (s : GoState) :
    handleMessage subMsgC3 s = handleSubscribeConfirm subMsgC3 "accf23133333" s := rfl

theorem handleMessage_qryMsgC3 (s : GoState) :
    handleMessage qryMsgC3 s = handleQueryResp qryMsgC3 "accf23133333" s := rfl

theorem heapSet_events (s : GoState) (p : Nat) (d : Device) :
    (heapSet s p d).events = s.events := rfl

/-- Evaluation of the subscribe-confirmation handler on `subMsgC3` over any registry that
knows the MAC: the state bit is applied, `LastMessage` refreshed, `subscribed` raised. -/
theorem handleSubscribeConfirm_eval (s : GoState) (p : Nat) (d : Device)
    (hp : lookupPtr s "accf23133333" = some p) (hd : s.heap.get? p = some d) :
    handleMessage subMsgC3 s =
      some (passMessage "subscribed" (some p)
              (heapSet s p { d with State := true, LastMessage := subMsgC3 }),
            true, none) := by
  rw [handleMessage_subMsgC3]
  unfold handleSubscribeConfirm
  have hex : existsDev s "accf23133333" = true := by
    unfold existsDev
    rw [hp]
    rfl
  rw [if_neg (by simp [hex])]
  rw [hp]
  simp only [Option.bind_eq_bind, Option.some_bind, hd]
  rw [if_pos (by decide)]

/-- Evaluation of the query-response handler on `qryMsgC3` (non-blank name field decoding
to `"Kitchen"` plus space padding) over any registry that knows the MAC. -/
theorem handleQueryResp_eval (s : GoState) (p : Nat) (d : Device)
    (hp : lookupPtr s "accf23133333" = some p) (hd : s.heap.get? p = some d) :
    handleMessage qryMsgC3 s =
      some (passMessage "queried" (some p)
              (heapSet s p { d with Name := "Kitchen         ", LastMessage := qryMsgC3 }),
            true, none) := by
  rw [handleMessage_qryMsgC3]
  unfold handleQueryResp
  have hslice : goSlice? qryMsgC3.data 140 172 = some "4b69746368656e202020202020202020".data := by
    decide
  rw [hslice]
  simp only [Option.bind_eq_bind, Option.some_bind]
  rw [hp]
  simp only [Option.some_bind, hd]
  rw [if_neg (by decide)]
  have hname : bytesToString (hexDecodeList "4b69746368656e202020202020202020".data)
      = "Kitchen         " := by decide
  rw [hname]

/-- Claim C3 (amended): a subscribe confirmation for a known MAC applies the carried state
bit, refreshes `LastMessage` and publishes `subscribed`, but leaves the `Subscribed` flag
untouched; a query response sets `Name` and publishes `queried` but leaves the `Queried`
flag untouched — both flags are written by the event consumer, not by `handleMessage`. -/
theorem C3_amended_thm (s : GoState) (p : Nat) (d : Device)
    (hp : lookupPtr s "accf23133333" = some p) (hd : s.heap.get? p = some d) :
    ((handleMessage subMsgC3 s).map (fun r => (r.1.heap.get? p, r.2.1, r.2.2)) =
        some (some { d with State := true, LastMessage := subMsgC3 }, true, none))
    ∧ ((handleMessage subMsgC3 s).map (fun r => (r.1.heap.get? p).map Device.Subscribed) =
        some (some d.Subscribed))
    ∧ (s.events = none →
        (handleMessage subMsgC3 s).map (fun r => r.1.events) =
          some (some ⟨"subscribed", some p⟩))
    ∧ ((handleMessage qryMsgC3 s).map (fun r => (r.1.heap.get? p).map Device.Queried) =
        some (some d.Queried)) := by
  have hlt : p < s.heap.length := heap_lt_of_get? hd
  have hsub := handleSubscribeConfirm_eval s p d hp hd
  have hqry := handleQueryResp_eval s p d hp hd
  have hgetSub : (passMessage "subscribed" (some p)
        (heapSet s p { d with State := true, LastMessage := subMsgC3 })).heap.get? p
      = some { d with State := true, LastMessage := subMsgC3 } := by
    rw [passMessage_heap]
    exact heapSet_get? _ hlt
  have hgetQry : (passMessage "queried" (some p)
        (heapSet s p { d with Name := "Kitchen         ", LastMessage := qryMsgC3 })).heap.get? p
      = some { d with Name := "Kitchen         ", LastMessage := qryMsgC3 } := by
    rw [passMessage_heap]
    exact heapSet_get? _ hlt
  refine ⟨?_, ?_, ?_, ?_⟩
  · rw [hsub, Option.map_some', hgetSub]
  · rw [hsub, Option.map_some', hgetSub]
    rfl
  · intro hev
    rw [hsub, Option.map_some']
    unfold passMessage
    rw [heapSet_events, hev]
  · rw [hqry, Option.map_some', hgetQry]
    rfl

/-- Claim C3 (witness): concrete instantiation on the registry `sUnsub`. -/
theorem C3_amended_witness :
    (lookupPtr sUnsub "accf23133333" = some 0 ∧ sUnsub.heap.get? 0 = some dUnsub)
    ∧ (((handleMessage subMsgC3 sUnsub).map (fun r => (r.1.heap.get? 0, r.2.1, r.2.2)) =
          some (some { dUnsub with State := true, LastMessage := subMsgC3 }, true, none))
        ∧ ((handleMessage subMsgC3 sUnsub).map
              (fun r => (r.1.heap.get? 0).map Device.Subscribed) =
            some (some dUnsub.Subscribed))
        ∧ (sUnsub.events = none →
            (handleMessage subMsgC3 sUnsub).map (fun r => r.1.events) =
              some (some ⟨"subscribed", some 0⟩))
        ∧ ((handleMessage qryMsgC3 sUnsub).map
              (fun r => (r.1.heap.get? 0).map Device.Queried) =
            some (some dUnsub.Queried))) :=
  ⟨⟨by decide, by decide⟩, C3_amended_thm sUnsub 0 dUnsub (by decide) (by decide)⟩

/-- Claim C3 (counterexample): on the registry `sUnsub` (MAC known, both flags `false`),
processing the subscribe confirmation leaves `Subscribed = false` and processing the query
response leaves `Queried = false` — the claim says they become `true`. -/
theorem C3_counterexample :
    ((handleMessage subMsgC3 sUnsub).map (fun r => (r.1.heap.get? 0).map Device.Subscribed) =
        some (some false))
    ∧ ((handleMessage qryMsgC3 sUnsub).map (fun r => (r.1.heap.get? 0).map Device.Queried) =
        some (some false)) := by
  constructor
  · decide
  · decide

/-! ## Hex rendering and length-field arithmetic (towards claim C2) -/

theorem str_length_eq_data (s : String) : s.data.length = s.length := rfl

theorem hexDigitVal_hexChar : ∀ m, m < 16 → hexDigitVal (hexChar m) = some m := by
  decide

theorem natToHexGo_length_le :
    ∀ (fuel n k : Nat), n ≤ fuel → 0 < k → n < 16 ^ k → (natToHexGo fuel n).length ≤ k := by
  intro fuel
  induction fuel with
  | zero =>
    intro n k hn hk _
    unfold natToHexGo
    simp
    omega
  | succ fuel ih =>
    intro n k hn hk hnk
    unfold natToHexGo
    split
    · simp
      omega
    · rename_i hge
      push_neg at hge
      obtain ⟨k1, rfl⟩ : ∃ k1, k = k1 + 1 := ⟨k - 1, by omega⟩
      have hk1 : 0 < k1 := by
        by_contra hc
        push_neg at hc
        interval_cases k1
        simp at hnk
        omega
      have hdiv : n / 16 < 16 ^ k1 := by
        rw [Nat.div_lt_iff_lt_mul (by norm_num)]
        calc n < 16 ^ (k1 + 1) := hnk
          _ = 16 ^ k1 * 16 := by ring
      have hfuel : n / 16 ≤ fuel := by
        have : n / 16 < n := Nat.div_lt_self (by omega) (by norm_num)
        omega
      have := ih (n / 16) k1 hfuel hk1 hdiv
      simp [List.length_append]
      omega

theorem natToHexCore_length_le (k n : Nat) (hk : 0 < k) (hn : n < 16 ^ k) :
    (natToHexCore n).length ≤ k :=
  natToHexGo_length_le n n k le_rfl hk hn

theorem formatHexPad_length (w n : Nat) (h : (natToHexCore n).length ≤ w) :
    (formatHexPad w n).length = w := by
  unfold formatHexPad
  rw [String.length_mk, List.length_append, List.length_replicate]
  omega

theorem hexToNat_append_singleton (l : List Char) (c : Char) :
    hexToNat (l ++ [c]) = 16 * hexToNat l + (hexDigitVal c).getD 0 := by
  unfold hexToNat
  rw [List.foldl_append]
  rfl

theorem hexToNat_natToHexGo :
    ∀ (fuel n : Nat), n ≤ fuel → hexToNat (natToHexGo fuel n) = n := by
  intro fuel
  induction fuel with
  | zero =>
    intro n hn
    have h0 : n = 0 := by omega
    subst h0
    decide
  | succ fuel ih =>
    intro n hn
    unfold natToHexGo
    split
    · rename_i hlt
      unfold hexToNat
      simp [hexDigitVal_hexChar n hlt]
    · rename_i hge
      push_neg at hge
      have hfuel : n / 16 ≤ fuel := by
        have : n / 16 < n := Nat.div_lt_self (by omega) (by norm_num)
        omega
      rw [hexToNat_append_singleton, ih (n / 16) hfuel,
        hexDigitVal_hexChar (n % 16) (Nat.mod_lt _ (by norm_num))]
      simp
      omega

theorem hexToNat_foldl_zero :
    ∀ k : Nat, List.foldl (fun acc c => 16 * acc + ((hexDigitVal c).getD 0)) 0
        (List.replicate k '0') = 0 := by
  intro k
  induction k with
  | zero => rfl
  | succ k ih =>
    rw [List.replicate_succ, List.foldl_cons]
    simpa using ih

theorem hexToNat_replicate_zero (k : Nat) (l : List Char) :
    hexToNat (List.replicate k '0' ++ l) = hexToNat l := by
  unfold hexToNat
  rw [List.foldl_append, hexToNat_foldl_zero]

theorem hexToNat_formatHexPad (w n : Nat) :
    hexToNat (formatHexPad w n).data = n := by
  unfold formatHexPad
  rw [show (String.mk (List.replicate (w - (natToHexCore n).length) '0' ++ natToHexCore n)).data
      = List.replicate (w - (natToHexCore n).length) '0' ++ natToHexCore n from rfl]
  rw [hexToNat_replicate_zero]
  exact hexToNat_natToHexGo n n le_rfl

theorem hexDecodeList_length :
    ∀ (l : List Char), (∀ c ∈ l, (hexDigitVal c).isSome = true) →
      l.length % 2 = 0 → (hexDecodeList l).length = l.length / 2
  | [], _, _ => by simp [hexDecodeList]
  | [a], _, he => by simp at he
  | a :: b :: rest, h, he => by
    have ha := h a (by simp)
    have hb := h b (by simp)
    obtain ⟨x, hx⟩ := Option.isSome_iff_exists.mp ha
    obtain ⟨y, hy⟩ := Option.isSome_iff_exists.mp hb
    have he2 : rest.length % 2 = 0 := by
      simp [List.length_cons] at he
      omega
    have ih := hexDecodeList_length rest (fun c hc => h c (by simp [hc])) he2
    simp [hexDecodeList, hx, hy, ih]
    omega

theorem hexEncodeList_length (bs : List Nat) : (hexEncodeList bs).length = 2 * bs.length := by
  induction bs with
  | nil => rfl
  | cons b rest ih =>
    simp [hexEncodeList, ih]
    omega

theorem reverseMAC_length (mac : String)
    (hhex : ∀ c ∈ mac.data, (hexDigitVal c).isSome = true) (he : mac.length % 2 = 0) :
    (reverseMAC mac).length = mac.length := by
  unfold reverseMAC
  rw [String.length_mk, hexEncodeList_length, List.length_reverse,
    hexDecodeList_length mac.data hhex (by rw [str_length_eq_data]; exact he)]
  rw [str_length_eq_data]
  omega

theorem slice_at (pre mid rest : List Char) (a n : Nat)
    (hpre : pre.length = a) (hmid : mid.length = n) :
    ((pre ++ (mid ++ rest)).drop a).take n = mid := by
  rw [List.drop_left' hpre, List.take_left' hmid]

theorem charSliceN_concat (str : String) (pre mid rest : List Char) (a b : Nat)
    (hdata : str.data = pre ++ (mid ++ rest)) (hpre : pre.length = a)
    (hmid : mid.length = b - a) :
    charSliceN str a b = String.mk mid := by
  unfold charSliceN
  rw [hdata, slice_at pre mid rest a (b - a) hpre hmid]

theorem swapPairs4_length (s : String) (h : s.length = 4) : (swapPairs4 s).length = 4 := by
  unfold swapPairs4
  rw [String.length_mk, List.length_append, List.length_take, List.length_drop,
    List.length_take]
  rw [← str_length_eq_data] at h
  omega

theorem rndHex_length (n : Nat) (h : n ≤ 254) : (rndHex n).length = 2 := by
  unfold rndHex
  refine formatHexPad_length 2 n (natToHexCore_length_le 2 n (by norm_num) ?_)
  have h16 : (16 : Nat) ^ 2 = 256 := by norm_num
  omega

theorem irLenField_length (IR : String) (h : IR.length ≤ 2000) : (irLenField IR).length = 4 := by
  unfold irLenField
  apply swapPairs4_length
  refine formatHexPad_length 4 _ (natToHexCore_length_le 4 _ (by norm_num) ?_)
  have h16 : (16 : Nat) ^ 4 = 65536 := by norm_num
  omega

theorem emitIRPacket_length (pl mac ra2 rb2 il IR : String)
    (hpl : pl.length = 4) (hmac : mac.length = 12) (hra : ra2.length = 2)
    (hrb : rb2.length = 2) (hil : il.length = 4) :
    (emitIRPacket pl mac ra2 rb2 il IR).length = 52 + IR.length := by
  unfold emitIRPacket
  simp only [String.length_append, hpl, hmac, hra, hrb, hil,
    show ("6864" : String).length = 4 from rfl,
    show ("6963" : String).length = 4 from rfl,
    show twenties.length = 12 from rfl,
    show ("65000000" : String).length = 8 from rfl]

theorem irPacketLen_length (IR : String) (ra rb : Nat) (hra : ra ≤ 254) (hrb : rb ≤ 254)
    (hIR : IR.length ≤ 2000) : (irPacketLen IR ra rb).length = 4 := by
  unfold irPacketLen
  refine formatHexPad_length 4 _ (natToHexCore_length_le 4 _ (by norm_num) ?_)
  rw [emitIRPacket_length "0000" "accfdeadbeef" _ _ _ IR rfl rfl
    (rndHex_length ra hra) (rndHex_length rb hrb) (irLenField_length IR hIR)]
  have h16 : (16 : Nat) ^ 4 = 65536 := by norm_num
  omega

theorem hexToNat_irPacketLen (IR : String) (ra rb : Nat) (hra : ra ≤ 254) (hrb : rb ≤ 254)
    (hIR : IR.length ≤ 2000) (heven : IR.length % 2 = 0) :
    hexToNat (irPacketLen IR ra rb).data = 26 + IR.length / 2 := by
  unfold irPacketLen
  rw [hexToNat_formatHexPad]
  rw [emitIRPacket_length "0000" "accfdeadbeef" _ _ _ IR rfl rfl
    (rndHex_length ra hra) (rndHex_length rb hrb) (irLenField_length IR hIR)]
  omega

/-- Claim C2 (amended): the 2-byte total-length field after the `6864` magic holds the
packet's total byte count in its *natural big-endian* hex form — for the subscribe command
the literal `001e` (30 bytes), and for an IR emit `fmt.Sprintf("%04s", len/2)` unswapped —
while the byte-pair swap (little-endian rendering) is applied only to the IR-code length
field *inside* the IR-emit payload. -/
theorem C2_amended_thm (s : GoState) (mac IR : String) (p : Nat) (d : Device) (ra rb : Nat)
    (hp : lookupPtr s mac = some p) (hd : s.heap.get? p = some d)
    (hT : d.DeviceType = ALLONE) (hne : mac ≠ "ALL")
    (hmac : mac.length = 12) (hhex : ∀ c ∈ mac.data, (hexDigitVal c).isSome = true)
    (hra : ra ≤ 254) (hrb : rb ≤ 254)
    (heven : IR.length % 2 = 0) (hIR : IR.length ≤ 2000) :
    (charSliceN (subscribePacket mac) 4 8 = "001e"
      ∧ hexToNat (charSliceN (subscribePacket mac) 4 8).data = (subscribePacket mac).length / 2
      ∧ swapPairs4 (formatHexPad 4 ((subscribePacket mac).length / 2)) = "1e00"
      ∧ ("001e" : String) ≠ "1e00")
    ∧ ((EmitIR IR mac ra rb s).map GoState.sent
          = some (s.sent ++ [emitIRPacket (irPacketLen IR ra rb) mac (rndHex ra) (rndHex rb)
              (irLenField IR) IR])
      ∧ hexToNat (charSliceN (emitIRPacket (irPacketLen IR ra rb) mac (rndHex ra) (rndHex rb)
            (irLenField IR) IR) 4 8).data
          = (emitIRPacket (irPacketLen IR ra rb) mac (rndHex ra) (rndHex rb)
              (irLenField IR) IR).length / 2
      ∧ charSliceN (emitIRPacket (irPacketLen IR ra rb) mac (rndHex ra) (rndHex rb)
            (irLenField IR) IR) 48 52
          = swapPairs4 (formatHexPad 4 (IR.length / 2))) := by
  have hrevlen : (reverseMAC mac).length = 12 := by
    rw [reverseMAC_length mac hhex (by omega), hmac]
  have hsublen : (subscribePacket mac).length = 60 := by
    unfold subscribePacket
    simp only [String.length_append, hmac, hrevlen,
      show ("6864001e636c" : String).length = 12 from rfl,
      show twenties.length = 12 from rfl]
  have hdataA : (subscribePacket mac).data
      = "6864".data ++ ("001e".data ++ ("636c".data ++ (mac.data
          ++ (twenties.data ++ ((reverseMAC mac).data ++ twenties.data))))) := by
    unfold subscribePacket
    simp only [String.data_append, List.append_assoc]
    rfl
  have hA1 : charSliceN (subscribePacket mac) 4 8 = "001e" := by
    have h := charSliceN_concat (subscribePacket mac) "6864".data "001e".data
      ("636c".data ++ (mac.data ++ (twenties.data ++ ((reverseMAC mac).data ++ twenties.data))))
      4 8 hdataA (by decide) (by decide)
    exact h.trans rfl
  -- lengths of the IR-emit packet components
  have hplLen : (irPacketLen IR ra rb).length = 4 := irPacketLen_length IR ra rb hra hrb hIR
  have hraLen : (rndHex ra).length = 2 := rndHex_length ra hra
  have hrbLen : (rndHex rb).length = 2 := rndHex_length rb hrb
  have hilLen : (irLenField IR).length = 4 := irLenField_length IR hIR
  have hpktLen : (emitIRPacket (irPacketLen IR ra rb) mac (rndHex ra) (rndHex rb)
      (irLenField IR) IR).length = 52 + IR.length :=
    emitIRPacket_length _ mac _ _ _ IR hplLen hmac hraLen hrbLen hilLen
  have hdata4 : (emitIRPacket (irPacketLen IR ra rb) mac (rndHex ra) (rndHex rb)
        (irLenField IR) IR).data
      = "6864".data ++ ((irPacketLen IR ra rb).data ++ ("6963".data ++ (mac.data
          ++ (twenties.data ++ ("65000000".data ++ ((rndHex ra).data ++ ((rndHex rb).data
          ++ ((irLenField IR).data ++ IR.data)))))))) := by
    unfold emitIRPacket
    simp only [String.data_append, List.append_assoc]
  have hB2field : charSliceN (emitIRPacket (irPacketLen IR ra rb) mac (rndHex ra) (rndHex rb)
        (irLenField IR) IR) 4 8 = irPacketLen IR ra rb := by
    have h := charSliceN_concat _ "6864".data (irPacketLen IR ra rb).data
      ("6963".data ++ (mac.data ++ (twenties.data ++ ("65000000".data ++ ((rndHex ra).data
        ++ ((rndHex rb).data ++ ((irLenField IR).data ++ IR.data)))))))
      4 8 hdata4 (by decide) (by rw [str_length_eq_data, hplLen])
    exact h.trans rfl
  have hdata48 : (emitIRPacket (irPacketLen IR ra rb) mac (rndHex ra) (rndHex rb)
        (irLenField IR) IR).data
      = ("6864".data ++ ((irPacketLen IR ra rb).data ++ ("6963".data ++ (mac.data
          ++ (twenties.data ++ ("65000000".data ++ ((rndHex ra).data ++ (rndHex rb).data)))))))
        ++ ((irLenField IR).data ++ IR.data) := by
    unfold emitIRPacket
    simp only [String.data_append, List.append_assoc]
  have hpre48 : ("6864".data ++ ((irPacketLen IR ra rb).data ++ ("6963".data ++ (mac.data
      ++ (twenties.data ++ ("65000000".data ++ ((rndHex ra).data
      ++ (rndHex rb).data))))))).length = 48 := by
    simp only [List.length_append, str_length_eq_data, hplLen, hmac, hraLen, hrbLen,
      show ("6864" : String).data.length = 4 from rfl,
      show ("6963" : String).data.length = 4 from rfl,
      show twenties.data.length = 12 from rfl,
      show ("65000000" : String).data.length = 8 from rfl]
  have hB3 : charSliceN (emitIRPacket (irPacketLen IR ra rb) mac (rndHex ra) (rndHex rb)
        (irLenField IR) IR) 48 52 = swapPairs4 (formatHexPad 4 (IR.length / 2)) := by
    have h := charSliceN_concat _ _ (irLenField IR).data IR.data 48 52 hdata48 hpre48
      (by rw [str_length_eq_data, hilLen])
    exact h.trans rfl
  refine ⟨⟨hA1, ?_, ?_, by decide⟩, ?_, ?_, hB3⟩
  · rw [hA1, hsublen]
    decide
  · rw [hsublen]
    decide
  · unfold EmitIR
    rw [if_neg hne, hp]
    simp only [Option.bind_eq_bind, Option.some_bind, hd]
    rw [if_pos hT, Option.map_some', SendMessage_sent]
  · rw [hB2field, hpktLen,
      hexToNat_irPacketLen IR ra rb hra hrb hIR heven]
    omega

/-- Claim C2 (counterexample): `EmitIR "aabb" "ALL"` with nonces 10/11 sends packets of 28
bytes whose length field is the natural big-endian `001c` — the byte-swapped encoding of 28
would be `1c00`, so the field does *not* equal the swapped (little-endian) form. -/
theorem C2_counterexample :
    (EmitIR "aabb" "ALL" 10 11 sTwoAllones).map GoState.sent =
      some ["6864001c6963accf23133333202020202020650000000a0b0200aabb",
            "6864001c6963accf23144444202020202020650000000a0b0200aabb"]
    ∧ charSliceN "6864001c6963accf23133333202020202020650000000a0b0200aabb" 4 8 = "001c"
    ∧ ("6864001c6963accf23133333202020202020650000000a0b0200aabb" : String).length / 2 = 28
    ∧ swapPairs4 (formatHexPad 4 28) = "1c00"
    ∧ ("001c" : String) ≠ "1c00" := by
  refine ⟨by decide, by decide, by decide, by decide, by decide⟩

/-- Claim C2 (witness): the amended length-field statement instantiated on `sTwoAllones`
with MAC `accf23133333`, IR code `"aabb"` and nonces 10/11. -/
theorem C2_amended_witness :
    (lookupPtr sTwoAllones "accf23133333" = some 0
      ∧ sTwoAllones.heap.get? 0 = some alloneDevA
      ∧ alloneDevA.DeviceType = ALLONE
      ∧ ("accf23133333" : String) ≠ "ALL"
      ∧ ("accf23133333" : String).length = 12
      ∧ (∀ c ∈ ("accf23133333" : String).data, (hexDigitVal c).isSome = true)
      ∧ 10 ≤ 254 ∧ 11 ≤ 254
      ∧ ("aabb" : String).length % 2 = 0 ∧ ("aabb" : String).length ≤ 2000)
    ∧ ((charSliceN (subscribePacket "accf23133333") 4 8 = "001e"
        ∧ hexToNat (charSliceN (subscribePacket "accf23133333") 4 8).data
            = (subscribePacket "accf23133333").length / 2
        ∧ swapPairs4 (formatHexPad 4 ((subscribePacket "accf23133333").length / 2)) = "1e00"
        ∧ ("001e" : String) ≠ "1e00")
      ∧ ((EmitIR "aabb" "accf23133333" 10 11 sTwoAllones).map GoState.sent
            = some (sTwoAllones.sent ++ [emitIRPacket (irPacketLen "aabb" 10 11) "accf23133333"
                (rndHex 10) (rndHex 11) (irLenField "aabb") "aabb"])
        ∧ hexToNat (charSliceN (emitIRPacket (irPacketLen "aabb" 10 11) "accf23133333"
              (rndHex 10) (rndHex 11) (irLenField "aabb") "aabb") 4 8).data
            = (emitIRPacket (irPacketLen "aabb" 10 11) "accf23133333"
                (rndHex 10) (rndHex 11) (irLenField "aabb") "aabb").length / 2
        ∧ charSliceN (emitIRPacket (irPacketLen "aabb" 10 11) "accf23133333"
              (rndHex 10) (rndHex 11) (irLenField "aabb") "aabb") 48 52
            = swapPairs4 (formatHexPad 4 (("aabb" : String).length / 2)))) :=
  ⟨⟨by decide, by decide, by decide, by decide, by decide, by decide, by decide, by decide,
      by decide, by decide⟩,
    C2_amended_thm sTwoAllones "accf23133333" "aabb" 0 alloneDevA 10 11
      (by decide) (by decide) (by decide) (by decide) (by decide) (by decide)
      (by decide) (by decide) (by decide) (by decide)⟩

/-! ## `strings.Index` under an appended suffix (towards claim C9) -/

theorem leadMatch_append (pat pre x : List Char) (h : pat.length ≤ pre.length) :
    leadMatch pat (pre ++ x) = leadMatch pat pre := by
  induction pat generalizing pre with
  | nil => simp [leadMatch]
  | cons p ps ih =>
    cases pre with
    | nil => simp at h
    | cons c cs =>
      simp only [List.cons_append, leadMatch, List.append_eq]
      rw [ih cs (by simp [List.length_cons] at h; omega)]

theorem strIndexL_cons (pat : List Char) (c : Char) (cs : List Char) :
    strIndexL pat (c :: cs) =
      if leadMatch pat (c :: cs) then 0
      else if strIndexL pat cs < 0 then -1 else strIndexL pat cs + 1 := by
  simp [strIndexL]

theorem strIndexL_append_found (pat pre x : List Char) (k : Nat)
    (h : strIndexL pat pre = (k : Int)) (hk : k + pat.length ≤ pre.length) :
    strIndexL pat (pre ++ x) = (k : Int) := by
  induction pre generalizing k with
  | nil =>
    simp only [List.length_nil] at hk
    have hpat : pat = [] := List.eq_nil_of_length_eq_zero (by omega)
    have hk0 : k = 0 := by omega
    subst hpat
    subst hk0
    cases x <;> simp [strIndexL, leadMatch]
  | cons c cs ih =>
    have hpatlen : pat.length ≤ (c :: cs).length := by
      simp only [List.length_cons] at hk ⊢
      omega
    have hLM : leadMatch pat ((c :: cs) ++ x) = leadMatch pat (c :: cs) :=
      leadMatch_append pat (c :: cs) x hpatlen
    rw [strIndexL_cons pat c cs] at h
    rw [show (c :: cs) ++ x = c :: (cs ++ x) from rfl] at hLM
    rw [List.cons_append, strIndexL_cons pat c (cs ++ x), hLM]
    by_cases hm : leadMatch pat (c :: cs) = true
    · rw [if_pos hm] at h ⊢
      exact h
    · rw [if_neg hm] at h ⊢
      by_cases hr : strIndexL pat cs < 0
      · rw [if_pos hr] at h
        omega
      · rw [if_neg hr] at h
        push_neg at hr
        have hk1 : 1 ≤ k := by omega
        have hrk : strIndexL pat cs = ((k - 1 : Nat) : Int) := by omega
        have hk2 : (k - 1) + pat.length ≤ cs.length := by
          simp only [List.length_cons] at hk
          omega
        have hrec := ih (k - 1) hrk hk2
        rw [hrec, if_neg (by omega)]
        omega

/-! ## Dispatch of a query response with an arbitrary 32-character name field -/

/-- Function `handleMessage` routes any datagram `qryPre ++ x` (32-hex-char name field `x`) to the
`"7274"` query-response case with the MAC extracted at `strings.Index(message, "accf")`. -/
theorem handleMessage_qry (x : String) (hx : x.length = 32) (s : GoState) :
    handleMessage (qryPre ++ x) s = handleQueryResp (qryPre ++ x) "accf23133333" s := by
  have hxd : x.data.length = 32 := by
    rw [str_length_eq_data]
    exact hx
  have hdata : (qryPre ++ x).data = qryPre.data ++ x.data := String.data_append qryPre x
  have hqlen : qryPre.data.length = 140 := by decide
  have hlen : (qryPre ++ x).data.length = 172 := by
    rw [hdata, List.length_append, hxd, hqlen]
  have hneq : ¬(qryPre ++ x = "686400067161") := by
    intro habs
    have h2 : (qryPre ++ x).length = 172 := by
      rw [← str_length_eq_data]
      exact hlen
    rw [habs] at h2
    exact absurd h2 (by decide)
  have hsplit8 : qryPre.data ++ x.data
      = "686400a8".data ++ ("7274".data
          ++ (("accf23133333".data ++ List.replicate 116 '0') ++ x.data)) := by
    have hq : qryPre.data
        = "686400a8".data ++ ("7274".data ++ ("accf23133333".data ++ List.replicate 116 '0')) := by
      decide
    rw [hq]
    simp [List.append_assoc]
  have hsplit12 : qryPre.data ++ x.data
      = "686400a87274".data ++ ("accf23133333".data ++ (List.replicate 116 '0' ++ x.data)) := by
    have hq : qryPre.data
        = "686400a87274".data ++ ("accf23133333".data ++ List.replicate 116 '0') := by
      decide
    rw [hq]
    simp [List.append_assoc]
  have hval8 : ((qryPre.data ++ x.data).drop 8).take 4 = "7274".data := by
    rw [hsplit8]
    exact slice_at _ _ _ 8 4 (by decide) (by decide)
  have hval12 : ((qryPre.data ++ x.data).drop 12).take 12 = "accf23133333".data := by
    rw [hsplit12]
    exact slice_at _ _ _ 12 12 (by decide) (by decide)
  have hcmd : goSlice? ((qryPre ++ x).data) 8 12 = some "7274".data := by
    unfold goSlice?
    rw [if_pos ⟨by norm_num, by norm_num, by rw [hlen]; norm_num⟩]
    rw [hdata]
    exact congrArg some hval8
  have hidx : strIndexL "accf".data ((qryPre ++ x).data) = (12 : Int) := by
    rw [hdata]
    exact strIndexL_append_found "accf".data qryPre.data x.data 12 (by decide) (by decide)
  have hmacslice : goSlice? ((qryPre ++ x).data) 12 (12 + 12) = some "accf23133333".data := by
    unfold goSlice?
    rw [if_pos ⟨by norm_num, by norm_num, by rw [hlen]; norm_num⟩]
    rw [hdata]
    exact congrArg some hval12
  unfold handleMessage
  simp only [hlen, hcmd, hidx, hmacslice, Option.bind_eq_bind, Option.some_bind]
  rw [if_neg (by norm_num), if_neg hneq,
    if_neg (show ¬("7274".data = "7161".data) from by decide),
    if_neg (show ¬("7274".data = "636c".data) from by decide),
    if_neg (show ¬("7274".data = "6463".data) from by decide)]
  simp

/-- Claim C9: a query response for the known MAC `accf23133333` whose 32-hex-char name
field is all-space (`2020…`) or all-`ff` sets `Name` to the synthesized
`"Socket <mac>"` when `DeviceType = SOCKET` and `"AllOne <mac>"` otherwise — never the
literal blank bytes — while any other name field sets `Name` to the decoded bytes. -/
theorem C9_thm (s : GoState) (p : Nat) (d : Device) (nameHex : String)
    (hp : lookupPtr s "accf23133333" = some p) (hd : s.heap.get? p = some d)
    (hx : nameHex.length = 32) :
    (handleMessage (qryPre ++ nameHex) s).map (fun r => r.1.heap.get? p) =
      some (some { d with
        Name := if nameHex = "20202020202020202020202020202020"
                  ∨ nameHex = "ffffffffffffffffffffffffffffffff" then
                  (if d.DeviceType = SOCKET then "Socket accf23133333"
                   else "AllOne accf23133333")
                else bytesToString (hexDecodeList nameHex.data),
        LastMessage := qryPre ++ nameHex }) := by
  have hlt : p < s.heap.length := heap_lt_of_get? hd
  have hxd : nameHex.data.length = 32 := by
    rw [str_length_eq_data]
    exact hx
  have hname : goSlice? (qryPre ++ nameHex).data 140 172 = some nameHex.data := by
    have hdata : (qryPre ++ nameHex).data = qryPre.data ++ nameHex.data :=
      String.data_append _ _
    have hlen2 : (qryPre ++ nameHex).data.length = 172 := by
      rw [hdata, List.length_append, hxd, show qryPre.data.length = 140 from by decide]
    unfold goSlice?
    rw [if_pos ⟨by norm_num, by norm_num, by rw [hlen2]; norm_num⟩]
    rw [hdata]
    show some (((qryPre.data ++ nameHex.data).drop 140).take 32) = some nameHex.data
    congr 1
    rw [List.drop_left' (show qryPre.data.length = 140 from by decide), ← hxd]
    exact List.take_length _
  rw [handleMessage_qry nameHex hx s]
  unfold handleQueryResp
  simp only [hname, hp, hd, Option.bind_eq_bind, Option.some_bind, Option.map_some']
  by_cases hb : nameHex = "20202020202020202020202020202020"
      ∨ nameHex = "ffffffffffffffffffffffffffffffff"
  · have hbd : nameHex.data = ("20202020202020202020202020202020" : String).data
        ∨ nameHex.data = ("ffffffffffffffffffffffffffffffff" : String).data := by
      cases hb with
      | inl h => exact Or.inl (congrArg String.data h)
      | inr h => exact Or.inr (congrArg String.data h)
    rw [if_pos hbd, if_pos hb]
    by_cases hsock : d.DeviceType = SOCKET
    · rw [if_pos hsock, if_pos hsock, passMessage_heap, heapSet_get? _ hlt]
      rfl
    · rw [if_neg hsock, if_neg hsock, passMessage_heap, heapSet_get? _ hlt]
      rfl
  · have hbd : ¬(nameHex.data = ("20202020202020202020202020202020" : String).data
        ∨ nameHex.data = ("ffffffffffffffffffffffffffffffff" : String).data) := fun habs =>
      hb (habs.elim (fun h => Or.inl (String.ext h)) (fun h => Or.inr (String.ext h)))
    rw [if_neg hbd, if_neg hb, passMessage_heap, heapSet_get? _ hlt]

/-- Claim C9 (witness): the all-space name field on the registry `sUnsub` (a `SOCKET`
device) — `Name` becomes `"Socket accf23133333"`. -/
theorem C9_witness :
    (lookupPtr sUnsub "accf23133333" = some 0
        ∧ sUnsub.heap.get? 0 = some dUnsub
        ∧ ("20202020202020202020202020202020" : String).length = 32)
    ∧ (handleMessage (qryPre ++ "20202020202020202020202020202020") sUnsub).map
          (fun r => r.1.heap.get? 0) =
        some (some { dUnsub with
          Name := if ("20202020202020202020202020202020" : String)
                      = "20202020202020202020202020202020"
                    ∨ ("20202020202020202020202020202020" : String)
                      = "ffffffffffffffffffffffffffffffff" then
                    (if dUnsub.DeviceType = SOCKET then "Socket accf23133333"
                     else "AllOne accf23133333")
                  else bytesToString (hexDecodeList
                    ("20202020202020202020202020202020" : String).data),
          LastMessage := qryPre ++ "20202020202020202020202020202020" }) :=
  ⟨⟨by decide, by decide, by decide⟩,
    C9_thm sUnsub 0 dUnsub "20202020202020202020202020202020"
      (by decide) (by decide) (by decide)⟩

end Orvibo
